import Mathlib

/-!
Shallow embedding of the training / evaluation / checkpointing logic of the
bondnet training notebook (`src/bondnet/scripts/train_bde.ipynb`).

Values that may be IEEE NaN (losses, metrics) are modelled by the type `Val`:
a rational number or the distinguished non-number `nan`, with the strict
comparison `Val.lt` returning `false` whenever either side is `nan`, matching
IEEE `<` on the cases the code exercises.

Python runtime failures that the notebook can hit are modelled by `PyError`:
`unboundLocal` (the `it + 1` division when the loop body never ran),
`divisionByZero` (Python float division by `0.0` raises ZeroDivisionError),
and `notFound` (`torch.load` on a missing checkpoint file).
-/

inductive PyError where
  | unboundLocal
  | divisionByZero
  | notFound
deriving DecidableEq, Repr

/-- A float-like scalar: either a rational number or NaN. -/
inductive Val where
  | num : ℚ → Val
  | nan : Val
deriving DecidableEq, Repr

/-- IEEE-style strict less-than: any comparison involving NaN is `false`. -/
def Val.lt : Val → Val → Bool
  | Val.num a, Val.num b => decide (a < b)
  | _, _ => false

/-- The checkpoint manager's state: the best validation metric observed so far
and the last persisted predictor state (`none` when no save ever happened,
i.e. no `checkpoint.pkl` file exists). -/
structure CkptState (P : Type) where
  best : Val
  saved : Option P
deriving DecidableEq, Repr

/-- Initial checkpoint state of the notebook's main loop: `best = 1e10` and no
checkpoint file written yet. -/
def initCkpt (P : Type) : CkptState P :=
  { best := Val.num 10000000000, saved := none }

/-- `is_best = val_acc < best; if is_best: best = val_acc; torch.save(...)`.
Returns the new state and whether a save occurred. -/
def maybe_save {P : Type} (m : Val) (p : P) (s : CkptState P) :
    CkptState P × Bool :=
  if Val.lt m s.best then ({ best := m, saved := some p }, true) else (s, false)

/-- `torch.load("checkpoint.pkl")`: the last persisted state, or a
file-not-found failure when no save ever happened. -/
def load_best {P : Type} (s : CkptState P) : Except PyError P :=
  match s.saved with
  | some p => Except.ok p
  | none => Except.error PyError.notFound

/-- Run a sequence of `maybe_save` calls, counting how many actually saved. -/
def runSaves {P : Type} (calls : List (Val × P)) (s : CkptState P) :
    CkptState P × Nat :=
  calls.foldl
    (fun acc c =>
      let r := maybe_save c.1 c.2 acc.1
      (r.1, acc.2 + (if r.2 then 1 else 0)))
    (s, 0)

/-- Claim C1: the checkpoint manager saves exactly when the current validation
metric is strictly below the best observed so far — such a call persists the
predictor state and lowers `best_so_far` to the metric, every other call is a
no-op — and on the metric sequence `[5, 3, 4, 2]` the final best is `2` with
exactly three saves. -/
theorem maybe_save_saves_iff_improved :
    (∀ (P : Type) (m : Val) (p : P) (s : CkptState P),
      (Val.lt m s.best = true →
        maybe_save m p s = ({ best := m, saved := some p }, true)) ∧
      (Val.lt m s.best = false → maybe_save m p s = (s, false))) ∧
    ((runSaves [(Val.num 5, 1), (Val.num 3, 2), (Val.num 4, 3), (Val.num 2, 4)]
        (initCkpt ℕ)).1.best = Val.num 2 ∧
     (runSaves [(Val.num 5, 1), (Val.num 3, 2), (Val.num 4, 3), (Val.num 2, 4)]
        (initCkpt ℕ)).2 = 3) := by
  refine ⟨fun P m p s => ⟨fun h => ?_, fun h => ?_⟩, by decide, by decide⟩
  · simp [maybe_save, h]
  · simp [maybe_save, h]

/-- Witness for C1 at a concrete improving call. -/
theorem maybe_save_saves_iff_improved_witness :
    maybe_save (Val.num 4) (7 : ℕ) (initCkpt ℕ) =
      ({ best := Val.num 4, saved := some 7 }, true) :=
  (maybe_save_saves_iff_improved.1 ℕ (Val.num 4) 7 (initCkpt ℕ)).1 (by decide)

/-!
The `train` and `evaluate` functions of the notebook.

The opaque torch collaborators (model forward pass, loss, metric, autograd,
optimizer) are parameters of the embedding, collected in `TorchEnv`.  The
mutable torch state visible to this code — the model parameters, the
accumulated gradient buffer and the train/eval mode flag — is `PState`; the
state also carries a log of the gradient-related operations performed, so that
ordering claims about `zero_grad` / `backward` / `step` are statable.
-/

/-- The gradient-related torch operations the loop body performs. -/
inductive TorchOp where
  | zeroGrad
  | backwardOp
  | optStep
deriving DecidableEq, Repr

/-- The opaque collaborators: model forward (depending on the mode flag),
loss, metric, autograd gradient of the loss at given parameters, gradient
accumulation (`gadd`/`gzero`), and the optimizer's parameter update. -/
structure TorchEnv (Param Grad Input : Type) where
  modelFn : Param → Bool → Input → List ℚ
  lossFn : List ℚ → List ℚ → ℚ
  metricFn : List ℚ → List ℚ → ℚ → ℚ
  gradFn : Param → Bool → Input → List ℚ → Grad
  gadd : Grad → Grad → Grad
  gzero : Grad
  stepFn : Param → Grad → Param

/-- Torch state: parameters, accumulated gradients, mode flag, operation log. -/
structure PState (Param Grad : Type) where
  params : Param
  grads : Grad
  training : Bool
  log : List TorchOp
deriving DecidableEq, Repr

/-- `model.train()`. -/
def modelTrainMode {Param Grad : Type} (s : PState Param Grad) :
    PState Param Grad :=
  { s with training := true }

/-- `model.eval()`. -/
def modelEvalMode {Param Grad : Type} (s : PState Param Grad) :
    PState Param Grad :=
  { s with training := false }

/-- `optimizer.zero_grad()`: clear the accumulated gradient buffer. -/
def zero_grad {Param Grad Input : Type} (env : TorchEnv Param Grad Input)
    (s : PState Param Grad) : PState Param Grad :=
  { s with grads := env.gzero, log := s.log ++ [TorchOp.zeroGrad] }

/-- `loss.backward()`: accumulate the gradient of the loss at the current
parameters into the gradient buffer. -/
def backward {Param Grad Input : Type} (env : TorchEnv Param Grad Input)
    (input : Input) (target : List ℚ) (s : PState Param Grad) :
    PState Param Grad :=
  { s with
      grads := env.gadd s.grads (env.gradFn s.params s.training input target),
      log := s.log ++ [TorchOp.backwardOp] }

/-- `optimizer.step()`: update the parameters using the accumulated gradients. -/
def opt_step {Param Grad Input : Type} (env : TorchEnv Param Grad Input)
    (s : PState Param Grad) : PState Param Grad :=
  { s with
      params := env.stepFn s.params s.grads,
      log := s.log ++ [TorchOp.optStep] }

/-- One `(batched_graph, label)` pair from the data loader: the batched input,
the normalized targets `label["value"]`, and `label["scaler_stdev"]`. -/
structure BatchData (Input : Type) where
  input : Input
  value : List ℚ
  scaler_stdev : ℚ
deriving DecidableEq, Repr

/-- Result of one iteration of the training loop body. -/
structure BatchResult (Param Grad : Type) where
  state : PState Param Grad
  loss : ℚ
  metric : ℚ
  nexamples : ℕ
deriving DecidableEq, Repr

/-- One iteration of `train`'s loop body, exactly in source order:
`pred = model(...)`, `loss = loss_fn(pred, target)`, `optimizer.zero_grad()`,
`loss.backward()`, `optimizer.step()`, then the batch's contributions
`loss`, `metric_fn(pred, target, stdev)` and `len(target)`. -/
def trainBatch {Param Grad Input : Type} (env : TorchEnv Param Grad Input)
    (b : BatchData Input) (s : PState Param Grad) : BatchResult Param Grad :=
  let pred := env.modelFn s.params s.training b.input
  let loss := env.lossFn pred b.value
  let s1 := zero_grad env s
  let s2 := backward env b.input b.value s1
  let s3 := opt_step env s2
  { state := s3, loss := loss,
    metric := env.metricFn pred b.value b.scaler_stdev,
    nexamples := b.value.length }

/-- The accumulators of `train`: state plus `epoch_loss`, `accuracy`, `count`. -/
structure LoopAcc (Param Grad : Type) where
  state : PState Param Grad
  epoch_loss : ℚ
  accuracy : ℚ
  count : ℚ
deriving DecidableEq, Repr

/-- One step of `train`'s accumulation: run the loop body on the current
state and add the batch's loss, metric and example count. -/
def trainStepAcc {Param Grad Input : Type} (env : TorchEnv Param Grad Input)
    (a : LoopAcc Param Grad) (b : BatchData Input) : LoopAcc Param Grad :=
  let r := trainBatch env b a.state
  { state := r.state, epoch_loss := a.epoch_loss + r.loss,
    accuracy := a.accuracy + r.metric,
    count := a.count + (r.nexamples : ℚ) }

/-- The `for it, (batched_graph, label) in enumerate(data_loader)` loop of
`train`, with its three accumulators starting at `0.0`. -/
def trainLoop {Param Grad Input : Type} (env : TorchEnv Param Grad Input)
    (loader : List (BatchData Input)) (s : PState Param Grad) :
    LoopAcc Param Grad :=
  loader.foldl (trainStepAcc env)
    { state := s, epoch_loss := 0, accuracy := 0, count := 0 }

/-- The notebook's `train` function.  After the loop, `epoch_loss /= it + 1`
raises an unbound-local error when the loop never ran (the loop variable `it`
was never assigned); otherwise `it + 1` is the number of batches.  Then
`accuracy /= count` raises ZeroDivisionError when `count == 0.0`. -/
def train {Param Grad Input : Type} (env : TorchEnv Param Grad Input)
    (loader : List (BatchData Input)) (s : PState Param Grad) :
    PState Param Grad × Except PyError (ℚ × ℚ) :=
  let a := trainLoop env loader (modelTrainMode s)
  if loader.length = 0 then (a.state, Except.error PyError.unboundLocal)
  else if a.count = 0 then (a.state, Except.error PyError.divisionByZero)
  else (a.state, Except.ok (a.epoch_loss / (loader.length : ℚ), a.accuracy / a.count))

/-- One step of `evaluate`'s accumulation: add the batch's metric value and
example count, predicting with the (eval-mode) state `s0`. -/
def evalStepAcc {Param Grad Input : Type} (env : TorchEnv Param Grad Input)
    (s0 : PState Param Grad) (a : ℚ × ℚ) (b : BatchData Input) : ℚ × ℚ :=
  (a.1 + env.metricFn (env.modelFn s0.params s0.training b.input)
           b.value b.scaler_stdev,
   a.2 + (b.value.length : ℚ))

/-- The notebook's `evaluate` function: `model.eval()`, then under
`torch.no_grad()` accumulate the metric and example count over the loader and
return their ratio.  The gradient buffer and parameters are never touched. -/
def evaluate {Param Grad Input : Type} (env : TorchEnv Param Grad Input)
    (loader : List (BatchData Input)) (s : PState Param Grad) :
    PState Param Grad × Except PyError ℚ :=
  let s0 := modelEvalMode s
  let a := loader.foldl (evalStepAcc env s0) (0, 0)
  if a.2 = 0 then (s0, Except.error PyError.divisionByZero)
  else (s0, Except.ok (a.1 / a.2))

/-- Claim C2 (amended): one iteration of the training-loop body computes the
loss from the prediction and the normalized target, then clears the gradient
buffer, then accumulates the gradient of the loss at the pre-step parameters
into the cleared buffer, then applies one optimizer step using exactly those
gradients.  The gradient buffer is cleared before the gradient computation,
not after the step, so after the iteration it still holds the batch's
gradients. -/
theorem train_batch_characterization {Param Grad Input : Type}
    (env : TorchEnv Param Grad Input) (b : BatchData Input)
    (s : PState Param Grad) :
    trainBatch env b s =
      { state :=
          { params := env.stepFn s.params
              (env.gadd env.gzero (env.gradFn s.params s.training b.input b.value)),
            grads := env.gadd env.gzero
              (env.gradFn s.params s.training b.input b.value),
            training := s.training,
            log := s.log ++ [TorchOp.zeroGrad, TorchOp.backwardOp, TorchOp.optStep] },
        loss := env.lossFn (env.modelFn s.params s.training b.input) b.value,
        metric := env.metricFn (env.modelFn s.params s.training b.input)
          b.value b.scaler_stdev,
        nexamples := b.value.length } := by
  simp [trainBatch, zero_grad, backward, opt_step]

/-- A small concrete torch environment used for concrete runs: one rational
parameter, additive rational gradients, constant gradient `5`. -/
def cEnv : TorchEnv ℚ ℚ Unit where
  modelFn p _ _ := [p]
  lossFn pred target := ((pred.zip target).map (fun q => (q.1 - q.2) * (q.1 - q.2))).sum
  metricFn pred target stdev :=
    stdev * ((pred.zip target).map (fun q => |q.1 - q.2|)).sum
  gradFn _ _ _ _ := 5
  gadd a b := a + b
  gzero := 0
  stepFn p g := p - g

/-- A concrete one-example batch. -/
def cBatch : BatchData Unit := { input := (), value := [3], scaler_stdev := 2 }

/-- A concrete starting torch state with an empty operation log. -/
def cState : PState ℚ ℚ := { params := 1, grads := 0, training := false, log := [] }

/-- Counterexample to claim C2 as stated: in the source the per-batch order is
`zero_grad`, `backward`, `step` — the accumulated gradients are reset before
the gradient computation, not after the optimizer step, and after the
iteration the gradient buffer is not zero. -/
theorem train_batch_grads_not_reset_after_step :
    (trainBatch cEnv cBatch cState).state.log =
      [TorchOp.zeroGrad, TorchOp.backwardOp, TorchOp.optStep] ∧
    (trainBatch cEnv cBatch cState).state.log ≠
      [TorchOp.backwardOp, TorchOp.optStep, TorchOp.zeroGrad] ∧
    (trainBatch cEnv cBatch cState).state.grads ≠ cEnv.gzero := by
  refine ⟨by decide, by decide, ?_⟩
  simp [trainBatch, zero_grad, backward, opt_step, cEnv, cBatch, cState]

/-- Claim C10: running the training loop on an empty loader neither returns a
pair nor raises a division error: the final division `epoch_loss /= it + 1`
references the never-assigned loop variable `it`, an unbound-local failure,
with the model already switched to training mode. -/
theorem train_empty_loader_unbound_variable {Param Grad Input : Type}
    (env : TorchEnv Param Grad Input) (s : PState Param Grad) :
    train env ([] : List (BatchData Input)) s =
      (modelTrainMode s, Except.error PyError.unboundLocal) ∧
    (train env ([] : List (BatchData Input)) s).2 ≠
      Except.error PyError.divisionByZero ∧
    ∀ r : ℚ × ℚ, (train env ([] : List (BatchData Input)) s).2 ≠ Except.ok r := by
  have h : train env ([] : List (BatchData Input)) s =
      (modelTrainMode s, Except.error PyError.unboundLocal) := rfl
  refine ⟨h, ?_, ?_⟩
  · rw [h]; simp
  · intro r; rw [h]; simp

/-- The per-batch results of one pass of the training loop: each batch's
result is produced from the state left by the previous batch. -/
def batchResults {Param Grad Input : Type} (env : TorchEnv Param Grad Input) :
    List (BatchData Input) → PState Param Grad → List (BatchResult Param Grad)
  | [], _ => []
  | b :: bs, s =>
    trainBatch env b s :: batchResults env bs (trainBatch env b s).state

/-- The torch state after running the loop body on every batch in order. -/
def batchFinal {Param Grad Input : Type} (env : TorchEnv Param Grad Input) :
    List (BatchData Input) → PState Param Grad → PState Param Grad
  | [], s => s
  | b :: bs, s => batchFinal env bs (trainBatch env b s).state

/-- Folding `trainStepAcc` accumulates exactly the sums of the per-batch
losses, metrics and example counts, threading the state through the batches. -/
theorem foldl_trainStep_spec {Param Grad Input : Type}
    (env : TorchEnv Param Grad Input) :
    ∀ (loader : List (BatchData Input)) (a : LoopAcc Param Grad),
      List.foldl (trainStepAcc env) a loader =
        { state := batchFinal env loader a.state,
          epoch_loss := a.epoch_loss +
            ((batchResults env loader a.state).map BatchResult.loss).sum,
          accuracy := a.accuracy +
            ((batchResults env loader a.state).map BatchResult.metric).sum,
          count := a.count +
            ((batchResults env loader a.state).map
              (fun r => (r.nexamples : ℚ))).sum } := by
  intro loader
  induction loader with
  | nil => intro a; simp [batchFinal, batchResults]
  | cons b bs ih =>
      intro a
      rw [List.foldl_cons, ih]
      simp [batchFinal, batchResults, trainStepAcc, add_assoc]

/-- The example counts recorded by the loop body are the batch target lengths. -/
theorem batchResults_nexamples {Param Grad Input : Type}
    (env : TorchEnv Param Grad Input) :
    ∀ (loader : List (BatchData Input)) (s : PState Param Grad),
      (batchResults env loader s).map (fun r => (r.nexamples : ℚ)) =
        loader.map (fun b => (b.value.length : ℚ)) := by
  intro loader
  induction loader with
  | nil => intro s; simp [batchResults]
  | cons b bs ih => intro s; simp [batchResults, ih, trainBatch]

/-- Summing rational casts of the batch lengths equals casting the natural sum. -/
theorem sum_lengths_cast {Input : Type} (loader : List (BatchData Input)) :
    (loader.map (fun b => (b.value.length : ℚ))).sum =
      (((loader.map (fun b => b.value.length)).sum : ℕ) : ℚ) := by
  induction loader with
  | nil => simp
  | cons b bs ih => simp [ih]

/-- `epoch_loss` accumulated by the loop is the sum of the per-batch losses. -/
theorem trainLoop_epoch_loss {Param Grad Input : Type}
    (env : TorchEnv Param Grad Input) (loader : List (BatchData Input))
    (s : PState Param Grad) :
    (trainLoop env loader s).epoch_loss =
      ((batchResults env loader s).map BatchResult.loss).sum := by
  simp only [trainLoop, foldl_trainStep_spec]
  simp

/-- `accuracy` accumulated by the loop is the sum of the per-batch metrics. -/
theorem trainLoop_accuracy {Param Grad Input : Type}
    (env : TorchEnv Param Grad Input) (loader : List (BatchData Input))
    (s : PState Param Grad) :
    (trainLoop env loader s).accuracy =
      ((batchResults env loader s).map BatchResult.metric).sum := by
  simp only [trainLoop, foldl_trainStep_spec]
  simp

/-- `count` accumulated by the loop is the total number of examples seen. -/
theorem trainLoop_count {Param Grad Input : Type}
    (env : TorchEnv Param Grad Input) (loader : List (BatchData Input))
    (s : PState Param Grad) :
    (trainLoop env loader s).count =
      (((loader.map (fun b => b.value.length)).sum : ℕ) : ℚ) := by
  simp only [trainLoop, foldl_trainStep_spec]
  simp [batchResults_nexamples, sum_lengths_cast]

/-- Claim C3: on a non-empty loader whose batches all carry at least one
example, `train` returns the pair
`(sum of per-batch losses / number of batches, sum of per-batch de-normalized
metrics / total number of examples)`. -/
theorem train_returns_averaged_sums {Param Grad Input : Type}
    (env : TorchEnv Param Grad Input) (loader : List (BatchData Input))
    (s : PState Param Grad) (hne : loader ≠ [])
    (hbatch : ∀ b ∈ loader, b.value ≠ []) :
    (train env loader s).2 =
      Except.ok
        (((batchResults env loader (modelTrainMode s)).map BatchResult.loss).sum
            / (loader.length : ℚ),
         ((batchResults env loader (modelTrainMode s)).map BatchResult.metric).sum
            / (((loader.map (fun b => b.value.length)).sum : ℕ) : ℚ)) := by
  have hlen : ¬(loader.length = 0) := by
    simpa [List.length_eq_zero] using hne
  have hsum : (loader.map (fun b => b.value.length)).sum ≠ 0 := by
    obtain ⟨b, bs, rfl⟩ := List.exists_cons_of_ne_nil hne
    have hb : b.value ≠ [] := hbatch b (List.mem_cons_self b bs)
    have hlb : b.value.length ≠ 0 := by
      simpa [List.length_eq_zero] using hb
    simp only [List.map_cons, List.sum_cons]
    omega
  have hcnt0 : ¬((trainLoop env loader (modelTrainMode s)).count = 0) := by
    rw [trainLoop_count]
    exact_mod_cast hsum
  simp only [train]
  rw [if_neg hlen, if_neg hcnt0]
  simp [trainLoop_epoch_loss, trainLoop_accuracy, trainLoop_count]

/-- Witness for C3 on a concrete one-batch loader. -/
theorem train_returns_averaged_sums_witness :
    (train cEnv [cBatch] cState).2 =
      Except.ok
        (((batchResults cEnv [cBatch] (modelTrainMode cState)).map
            BatchResult.loss).sum / (([cBatch] : List (BatchData Unit)).length : ℚ),
         ((batchResults cEnv [cBatch] (modelTrainMode cState)).map
            BatchResult.metric).sum
            / ((((([cBatch] : List (BatchData Unit))).map
                  (fun b => b.value.length)).sum : ℕ) : ℚ)) :=
  train_returns_averaged_sums cEnv [cBatch] cState (by simp) (by decide)

/-- Claim C4: `evaluate` is side-effect-free on the model — it leaves the
parameters (and gradient buffer) unchanged — and running it a second time on
the state it returned produces the identical result. -/
theorem evaluate_idempotent_and_pure {Param Grad Input : Type}
    (env : TorchEnv Param Grad Input) (loader : List (BatchData Input))
    (s : PState Param Grad) :
    (evaluate env loader s).1.params = s.params ∧
    (evaluate env loader s).1.grads = s.grads ∧
    evaluate env loader ((evaluate env loader s).1) = evaluate env loader s := by
  have h1 : (evaluate env loader s).1 = modelEvalMode s := by
    simp only [evaluate]
    split <;> rfl
  refine ⟨by rw [h1]; rfl, by rw [h1]; rfl, ?_⟩
  rw [h1]
  rfl

/-- The count component of `evaluate`'s fold is the total example count. -/
theorem foldl_evalStep_count {Param Grad Input : Type}
    (env : TorchEnv Param Grad Input) (s0 : PState Param Grad) :
    ∀ (loader : List (BatchData Input)) (a : ℚ × ℚ),
      (List.foldl (evalStepAcc env s0) a loader).2 =
        a.2 + (loader.map (fun b => (b.value.length : ℚ))).sum := by
  intro loader
  induction loader with
  | nil => intro a; simp
  | cons b bs ih =>
      intro a
      rw [List.foldl_cons, ih]
      simp [evalStepAcc, add_assoc]

/-- Claim C8: on a loader carrying zero examples in total, `evaluate` fails
with the division error raised by `accuracy / count` at `count == 0`. -/
theorem evaluate_empty_fails_division {Param Grad Input : Type}
    (env : TorchEnv Param Grad Input) (loader : List (BatchData Input))
    (s : PState Param Grad)
    (h : (loader.map (fun b => b.value.length)).sum = 0) :
    (evaluate env loader s).2 = Except.error PyError.divisionByZero := by
  have hc : (List.foldl (evalStepAcc env (modelEvalMode s))
      ((0 : ℚ), (0 : ℚ)) loader).2 = 0 := by
    rw [foldl_evalStep_count]
    rw [sum_lengths_cast, h]
    simp
  simp only [evaluate]
  rw [if_pos hc]

/-- Witness for C8 on the empty loader. -/
theorem evaluate_empty_fails_division_witness :
    (evaluate cEnv ([] : List (BatchData Unit)) cState).2 =
      Except.error PyError.divisionByZero :=
  evaluate_empty_fails_division cEnv [] cState (by simp)

/-!
The notebook's main loop: for each epoch, train, evaluate on the validation
loader, `maybe_save` the model state, print a progress line; after all
epochs, `torch.load` the checkpoint, restore it, evaluate on the test loader
and print the test accuracy.

At this level the training and evaluation passes (over the fixed loaders) are
the opaque collaborators: `trainFn` returns the post-epoch predictor state and
the `(loss, train_acc)` pair, `evalValFn` / `evalTestFn` return the accuracy
on the validation / test loader for a given predictor state.
-/

/-- The per-epoch collaborators of the main loop. -/
structure DriverEnv (P : Type) where
  trainFn : P → P × Val × Val
  evalValFn : P → Val
  evalTestFn : P → Val

/-- One printed progress line: `epoch, loss, train_acc, val_acc`. -/
structure ProgressRecord where
  epoch : ℕ
  loss : Val
  train_acc : Val
  val_acc : Val
deriving DecidableEq, Repr

/-- The epoch loop: run `n` epochs starting at epoch index `e` from predictor
state `p` and checkpoint state `ck`; returns the final predictor state, the
final checkpoint state, and the progress records in order. -/
def runEpochs {P : Type} (env : DriverEnv P) :
    ℕ → ℕ → P → CkptState P → P × CkptState P × List ProgressRecord
  | 0, _, p, ck => (p, ck, [])
  | Nat.succ n, e, p, ck =>
    let r := env.trainFn p
    let v := env.evalValFn r.1
    let ck' := (maybe_save v r.1 ck).1
    let rest := runEpochs env n (e + 1) r.1 ck'
    (rest.1, rest.2.1,
      { epoch := e, loss := r.2.1, train_acc := r.2.2, val_acc := v } :: rest.2.2)

/-- The whole main loop: `best = 1e10`, the epoch loop from epoch `0`, then
`torch.load` of the best checkpoint and the test-set evaluation.  Returns the
progress records together with either the test accuracy or the failure of the
final load. -/
def driver {P : Type} (env : DriverEnv P) (numEpochs : ℕ) (p0 : P) :
    List ProgressRecord × Except PyError Val :=
  let res := runEpochs env numEpochs 0 p0 (initCkpt P)
  match load_best res.2.1 with
  | Except.ok pb => (res.2.2, Except.ok (env.evalTestFn pb))
  | Except.error err => (res.2.2, Except.error err)

/-- Written from the spec (§4.5): the predictor / checkpoint state after one
spec epoch — train, evaluate on validation, `maybe_save`. -/
def specStep {P : Type} (env : DriverEnv P) (x : P × CkptState P) :
    P × CkptState P :=
  let p' := (env.trainFn x.1).1
  (p', (maybe_save (env.evalValFn p') p' x.2).1)

/-- Written from the spec (§4.5): the state after `k` spec epochs from `x`. -/
def specIter {P : Type} (env : DriverEnv P) (x : P × CkptState P) :
    ℕ → P × CkptState P
  | 0 => x
  | Nat.succ k => specStep env (specIter env x k)

/-- Written from the spec (§4.5): the progress record emitted at epoch `e`
from state `x` — `(epoch, loss, train_acc, val_acc)`. -/
def specRecordAt {P : Type} (env : DriverEnv P) (x : P × CkptState P)
    (e : ℕ) : ProgressRecord :=
  let r := env.trainFn x.1
  { epoch := e, loss := r.2.1, train_acc := r.2.2,
    val_acc := env.evalValFn r.1 }

/-- Written from the spec (§4.5): for each epoch `0..n-1` emit the progress
record of that epoch's state; after all epochs load the best checkpoint,
restore it and evaluate the test split. -/
def driverSpec {P : Type} (env : DriverEnv P) (n : ℕ) (p0 : P) :
    List ProgressRecord × Except PyError Val :=
  ((List.range n).map
      (fun i => specRecordAt env (specIter env (p0, initCkpt P) i) i),
   match load_best (specIter env (p0, initCkpt P) n).2 with
   | Except.ok pb => Except.ok (env.evalTestFn pb)
   | Except.error err => Except.error err)

/-- Iterating the spec step commutes with taking one step first. -/
theorem specIter_shift {P : Type} (env : DriverEnv P) :
    ∀ (k : ℕ) (x : P × CkptState P),
      specIter env (specStep env x) k = specIter env x (k + 1) := by
  intro k
  induction k with
  | zero => intro x; rfl
  | succ k ih =>
      intro x
      simp only [specIter, ih]

/-- The epoch loop computes exactly the spec's iterated state and records. -/
theorem runEpochs_eq_spec {P : Type} (env : DriverEnv P) :
    ∀ (n e : ℕ) (x : P × CkptState P),
      runEpochs env n e x.1 x.2 =
        ((specIter env x n).1, (specIter env x n).2,
         (List.range n).map
           (fun i => specRecordAt env (specIter env x i) (e + i))) := by
  intro n
  induction n with
  | zero => intro e x; rfl
  | succ n ih =>
      intro e x
      have h1 : (env.trainFn x.1).1 = (specStep env x).1 := rfl
      have h2 : (maybe_save (env.evalValFn (specStep env x).1)
            (specStep env x).1 x.2).1 = (specStep env x).2 := rfl
      simp only [runEpochs, h1, h2, ih (e + 1) (specStep env x),
        specIter_shift, Nat.succ_eq_add_one]
      rw [List.range_succ_eq_map, List.map_cons, List.map_map]
      refine congrArg₂ Prod.mk rfl ?_
      refine congrArg₂ Prod.mk rfl ?_
      refine congrArg₂ List.cons ?_ ?_
      · simp [specRecordAt, specStep, specIter]
      · refine List.map_congr_left ?_
        intro i hi
        have h3 : e + 1 + i = e + (i + 1) := by omega
        simp only [Function.comp_apply, h3]

/-- Claim C5: the main loop refines the spec's driver — for every epoch
`0..n-1`, in order, one training pass, one validation evaluation, one
`maybe_save` of the post-epoch predictor state, one progress record
`(epoch, loss, train_acc, val_acc)`; after all epochs the best checkpoint is
loaded, restored, and evaluated on the test split. -/
theorem driver_refines_spec {P : Type} (env : DriverEnv P) (n : ℕ) (p0 : P) :
    driver env n p0 = driverSpec env n p0 := by
  have h := runEpochs_eq_spec env n 0 (p0, initCkpt P)
  dsimp only at h
  simp only [driver, driverSpec, h, Nat.zero_add]
  rcases hL : load_best (specIter env (p0, initCkpt P) n).2 with err | pb <;>
    simp [hL]

/-- Claim C7: when no checkpoint was ever saved, the final load fails with the
file-not-found error; in particular a run with zero epochs emits no progress
records and ends in that failure instead of a test accuracy. -/
theorem load_best_fails_when_never_saved :
    (∀ (P : Type) (s : CkptState P), s.saved = none →
      load_best s = Except.error PyError.notFound) ∧
    (∀ (P : Type) (env : DriverEnv P) (p0 : P),
      driver env 0 p0 = ([], Except.error PyError.notFound)) := by
  constructor
  · intro P s h
    simp [load_best, h]
  · intro P env p0
    rfl

/-- A concrete driver environment over rational predictor states. -/
def dEnv : DriverEnv ℚ where
  trainFn p := (p + 1, Val.num 1, Val.num 2)
  evalValFn p := Val.num p
  evalTestFn p := Val.num p

/-- Witness for C7: a never-saved state and a zero-epoch run. -/
theorem load_best_fails_when_never_saved_witness :
    load_best (initCkpt ℕ) = Except.error PyError.notFound ∧
    driver dEnv 0 0 = ([], Except.error PyError.notFound) :=
  ⟨load_best_fails_when_never_saved.1 ℕ (initCkpt ℕ) rfl,
   load_best_fails_when_never_saved.2 ℚ dEnv 0⟩

/-- Claim C9: the best-so-far metric starts at the sentinel `1e10`, not
infinity, so a run whose every validation metric is a finite number at or
above `1e10` never saves a checkpoint and the final load fails even though
epochs were run. -/
theorem sentinel_best_blocks_large_metrics :
    (∀ (P : Type), (initCkpt P).best = Val.num 10000000000) ∧
    (∀ (P : Type) (env : DriverEnv P) (n : ℕ) (p0 : P),
      (∀ p : P, ∃ v : ℚ, env.evalValFn p = Val.num v ∧ 10000000000 ≤ v) →
      (driver env n p0).2 = Except.error PyError.notFound) := by
  constructor
  · intro P; rfl
  · intro P env n p0 hbig
    have hck : ∀ (m e : ℕ) (p : P),
        (runEpochs env m e p (initCkpt P)).2.1 = initCkpt P := by
      intro m
      induction m with
      | zero => intro e p; rfl
      | succ m ih =>
          intro e p
          obtain ⟨v, hv, hle⟩ := hbig (env.trainFn p).1
          have hno : Val.lt (env.evalValFn (env.trainFn p).1)
              (initCkpt P).best = false := by
            rw [hv]
            simp only [Val.lt, initCkpt, decide_eq_false_iff_not, not_lt]
            linarith
          have hkeep : (maybe_save (env.evalValFn (env.trainFn p).1)
              (env.trainFn p).1 (initCkpt P)).1 = initCkpt P := by
            simp [maybe_save, hno]
          simp only [runEpochs]
          rw [hkeep, ih]
    simp only [driver, hck n 0 p0]
    rfl

/-- A concrete driver environment whose validation metric is always `1e10`. -/
def dEnvBig : DriverEnv Unit where
  trainFn _ := ((), Val.num 0, Val.num 0)
  evalValFn _ := Val.num 10000000000
  evalTestFn _ := Val.num 0

/-- Witness for C9: three epochs at metric `1e10` still end in a failed load. -/
theorem sentinel_best_blocks_large_metrics_witness :
    (driver dEnvBig 3 ()).2 = Except.error PyError.notFound :=
  sentinel_best_blocks_large_metrics.2 Unit dEnvBig 3 ()
    (fun _ => ⟨10000000000, rfl, le_refl _⟩)

/-- Claim C6: a NaN validation metric never satisfies the strict comparison,
so `maybe_save` neither saves nor changes `best_so_far`; and non-finite values
propagate into the emitted progress record unchanged — a one-epoch run whose
validation metric is NaN emits the raw `(loss, train_acc, NaN)` record and
ends with a failed checkpoint load. -/
theorem nan_metric_never_checkpointed :
    (∀ (P : Type) (p : P) (s : CkptState P),
      maybe_save Val.nan p s = (s, false)) ∧
    (∀ (P : Type) (env : DriverEnv P) (p0 : P),
      env.evalValFn (env.trainFn p0).1 = Val.nan →
      driver env 1 p0 =
        ([{ epoch := 0, loss := (env.trainFn p0).2.1,
            train_acc := (env.trainFn p0).2.2, val_acc := Val.nan }],
         Except.error PyError.notFound)) := by
  constructor
  · intro P p s
    have hlt : Val.lt Val.nan s.best = false := rfl
    simp [maybe_save, hlt]
  · intro P env p0 h
    have hd : driver env 1 p0 =
        (match load_best (maybe_save (env.evalValFn (env.trainFn p0).1)
              (env.trainFn p0).1 (initCkpt P)).1 with
         | Except.ok pb =>
             ([{ epoch := 0, loss := (env.trainFn p0).2.1,
                 train_acc := (env.trainFn p0).2.2,
                 val_acc := env.evalValFn (env.trainFn p0).1 }],
              Except.ok (env.evalTestFn pb))
         | Except.error err =>
             ([{ epoch := 0, loss := (env.trainFn p0).2.1,
                 train_acc := (env.trainFn p0).2.2,
                 val_acc := env.evalValFn (env.trainFn p0).1 }],
              Except.error err)) := rfl
    rw [hd, h]
    rfl

/-- A concrete driver environment with NaN loss and NaN validation metric. -/
def dEnvNan : DriverEnv Unit where
  trainFn _ := ((), Val.nan, Val.num 1)
  evalValFn _ := Val.nan
  evalTestFn _ := Val.num 0

/-- Witness for C6: a concrete one-epoch NaN run. -/
theorem nan_metric_never_checkpointed_witness :
    driver dEnvNan 1 () =
      ([{ epoch := 0, loss := (dEnvNan.trainFn ()).2.1,
          train_acc := (dEnvNan.trainFn ()).2.2, val_acc := Val.nan }],
       Except.error PyError.notFound) :=
  nan_metric_never_checkpointed.2 Unit dEnvNan () rfl
